import Mathlib

/-!
Shallow embedding of the PawsPlace listing front end.

The embedding follows the JavaScript source:
* `applyFiltersAndSort` (index page) — the filter/filter/sort pipeline;
* `fetchListings` / `searchListingsByLocation` / `isSupabaseConfigured`
  (lib/supabase.js) — the backend client adapter, with the backend
  response abstracted as a `BackendResult` parameter;
* `signInUser` (lib/supabase.js, auth section) and the login page's
  `handleSubmit` mock branch together with `updateAuthState`
  (AuthContext) — the mock-mode sign-in flow.

Modelling conventions:
* JavaScript fields that may be `undefined` are `Option` fields; strict
  equality `x === v` on a possibly-missing field becomes `x == some v`,
  and `undefined > 0` / `undefined >= 3` are `false`, as in JS.
* `Listed` timestamps are embedded as order-preserving natural numbers
  (the result of `new Date(...)`): the pipeline only ever subtracts them.
* `Array.prototype.sort` (stable per ES2019) is modelled by a stable
  insertion sort on the relation `comparator a b ≤ 0`.
* JS `&&`/`||` short-circuit Booleans map to `&&`/`||` on `Bool`.
-/

namespace PawsPlace

/-- `leadsWith needle hay`: `needle` is an initial run of `hay`
(character-list version of a prefix test, used to embed JS
`String.prototype.includes`). -/
def leadsWith : List Char → List Char → Bool
  | [], _ => true
  | _ :: _, [] => false
  | a :: as, b :: bs => a == b && leadsWith as bs

/-- `hasSub needle hay`: `needle` occurs contiguously inside `hay`. -/
def hasSub (needle : List Char) : List Char → Bool
  | [] => leadsWith needle []
  | b :: hay => leadsWith needle (b :: hay) || hasSub needle hay

/-- Embedding of JS `hay.includes(needle)`. -/
def strContains (hay needle : String) : Bool :=
  hasSub needle.data hay.data

/-- Embedding of JS `s.toLowerCase()` (character-wise simple case
fold), written over the character list so that it evaluates by
reduction. -/
def lowerStr (s : String) : String :=
  String.mk (s.data.map Char.toLower)

/-- One rental listing, mirroring the record shape used by the source.
Fields the code guards against absence (`|| 0`, `?.`, `=== true`) are
`Option`s; `Listed` is the numeric timestamp. -/
structure Listing where
  id : Nat
  Title : String
  Rent : Option Nat
  Listed : Nat
  Bedrooms : Option Nat
  Baths : Option Nat
  Location : Option String
  Description : Option String
  Furnished : Option Bool
  Garden : Option Bool
  SquareFootage : Option Nat
  PetParkingCosts : Option Nat
  StairFreeAccess : Option Bool
  HouseShare : Option Bool
deriving DecidableEq

/-- The fixed 5-listing fixture set returned by `getMockListings` in
lib/supabase.js.  Timestamps `2024-01-15T10:00:00Z` … are embedded as
the order-preserving numbers `202401151000` … -/
def getMockListings : List Listing :=
  [ { id := 1, Title := "Spacious 2-Bedroom Flat in Camden", Rent := some 2200,
      Listed := 202401151000, Bedrooms := some 2, Baths := some 1,
      Location := some "Camden, NW1",
      Description := some "Beautiful 2-bedroom apartment with large windows and pet-friendly amenities. Close to Camden Market and tube station. Garden access available for pets.",
      Furnished := some true, Garden := some true, SquareFootage := some 850,
      PetParkingCosts := some 50, StairFreeAccess := some false, HouseShare := some false },
    { id := 2, Title := "Modern Studio with Pet-Friendly Courtyard", Rent := some 1650,
      Listed := 202401121430, Bedrooms := some 0, Baths := some 1,
      Location := some "Islington, N1",
      Description := some "Contemporary studio apartment with access to shared courtyard. Perfect for pet owners with small to medium pets. Utilities included.",
      Furnished := some true, Garden := some true, SquareFootage := some 400,
      PetParkingCosts := some 25, StairFreeAccess := some true, HouseShare := some false },
    { id := 3, Title := "3-Bedroom House with Large Garden", Rent := some 3200,
      Listed := 202401100915, Bedrooms := some 3, Baths := some 2,
      Location := some "Clapham, SW4",
      Description := some "Charming Victorian house with large private garden. Perfect for families with pets. Recently renovated kitchen and bathrooms.",
      Furnished := some false, Garden := some true, SquareFootage := some 1200,
      PetParkingCosts := some 0, StairFreeAccess := some false, HouseShare := some false },
    { id := 4, Title := "Room in Pet-Friendly House Share", Rent := some 950,
      Listed := 202401081645, Bedrooms := some 1, Baths := some 1,
      Location := some "Hackney, E8",
      Description := some "Large double room in friendly house share. Current housemates have cats and are very welcoming to pets. Shared garden and living spaces.",
      Furnished := some true, Garden := some true, SquareFootage := some 180,
      PetParkingCosts := some 15, StairFreeAccess := some true, HouseShare := some true },
    { id := 5, Title := "Luxury 1-Bedroom with Balcony", Rent := some 2800,
      Listed := 202401051120, Bedrooms := some 1, Baths := some 1,
      Location := some "Canary Wharf, E14",
      Description := some "High-specification apartment with private balcony and concierge service. Pet washing station in building. River views.",
      Furnished := some true, Garden := some false, SquareFootage := some 650,
      PetParkingCosts := some 100, StairFreeAccess := some true, HouseShare := some false } ]

/-- The property-type `switch` in `applyFiltersAndSort`: strict JS
equality on possibly-missing fields, `>= 3` false on `undefined`,
default branch keeps the listing. -/
def propertyTypeKeeps (propertyType : String) (listing : Listing) : Bool :=
  match propertyType with
  | "studio" => listing.Bedrooms == some 0
  | "one-bed" => listing.Bedrooms == some 1
  | "two-bed" => listing.Bedrooms == some 2
  | "three-bed" =>
      match listing.Bedrooms with
      | some n => decide (3 ≤ n)
      | none => false
  | "house-share" => listing.HouseShare == some true
  | "furnished" => listing.Furnished == some true
  | "unfurnished" => listing.Furnished == some false
  | _ => true

/-- `listing.Description?.toLowerCase().includes(needle)` — `false`
when `Description` is absent (optional chaining yields `undefined`,
which is falsy in the surrounding `||` chain). -/
def descHas (listing : Listing) (needle : String) : Bool :=
  match listing.Description with
  | some d => strContains (lowerStr d) needle
  | none => false

/-- The pet-friendly predicate of `applyFiltersAndSort`. -/
def petFriendlyKeeps (listing : Listing) : Bool :=
  (match listing.PetParkingCosts with
   | some n => decide (0 < n)
   | none => false) ||
  listing.Garden == some true ||
  descHas listing "pet" ||
  descHas listing "dog" ||
  descHas listing "cat"

/-- The numeric comparator of the sort `switch`, as an integer
(JS returns `Number`s; missing `Rent`/`Bedrooms` default to 0 via
`|| 0`, `Listed` is compared through `new Date`). Default branch
compares everything equal. -/
def sortCmp (sortKey : String) (a b : Listing) : Int :=
  match sortKey with
  | "newest" => (b.Listed : Int) - (a.Listed : Int)
  | "oldest" => (a.Listed : Int) - (b.Listed : Int)
  | "cheapest" => ((a.Rent.getD 0 : Nat) : Int) - ((b.Rent.getD 0 : Nat) : Int)
  | "expensive" => ((b.Rent.getD 0 : Nat) : Int) - ((a.Rent.getD 0 : Nat) : Int)
  | "bedrooms-asc" => ((a.Bedrooms.getD 0 : Nat) : Int) - ((b.Bedrooms.getD 0 : Nat) : Int)
  | "bedrooms-desc" => ((b.Bedrooms.getD 0 : Nat) : Int) - ((a.Bedrooms.getD 0 : Nat) : Int)
  | _ => 0

/-- Stable insertion of `a` into `l`: `a` goes before the first element
`b` with `le a b` (ties keep the earlier-input element in front). -/
def insertSorted {α : Type} (le : α → α → Bool) (a : α) : List α → List α
  | [] => [a]
  | b :: l => if le a b then a :: b :: l else b :: insertSorted le a l

/-- Stable sort on the Boolean relation `le`; for a consistent JS
comparator `cmp`, `stableSortBy (fun a b => cmp a b ≤ 0)` computes the
result of the (stable) `Array.prototype.sort`. -/
def stableSortBy {α : Type} (le : α → α → Bool) : List α → List α
  | [] => []
  | a :: l => insertSorted le a (stableSortBy le l)

/-- The sort step of the pipeline. -/
def sortListings (sortKey : String) (l : List Listing) : List Listing :=
  stableSortBy (fun a b => decide (sortCmp sortKey a b ≤ 0)) l

/-- The pipeline `applyFiltersAndSort` of the index page: copy, optional
property-type filter, optional pet-friendly filter, sort. -/
def applyFiltersAndSort (listings : List Listing) (propertyType : String)
    (showPetFriendlyOnly : Bool) (sortKey : String) : List Listing :=
  let f1 := if propertyType == "" then listings
            else listings.filter (propertyTypeKeeps propertyType)
  let f2 := if showPetFriendlyOnly then f1.filter petFriendlyKeeps else f1
  sortListings sortKey f2

/-- Outcome of one backend table query, as seen by the adapter's
`try`/`catch`: a successful response carrying `data` (possibly `null`),
an error value in the response, or a thrown exception. -/
inductive BackendResult (α : Type) where
  | ok (data : Option α)
  | err
  | exn
deriving DecidableEq

/-- `fetchListings` of lib/supabase.js: mock data when unconfigured;
otherwise `data || []` on success and mock data on a reported error or
a thrown exception. -/
def fetchListings (configured : Bool) (backend : BackendResult (List Listing)) : List Listing :=
  if !configured then getMockListings
  else
    match backend with
    | .ok d => d.getD []
    | .err => getMockListings
    | .exn => getMockListings

/-- The unconfigured branch of `searchListingsByLocation`:
`mockData.filter(l => l.Location.toLowerCase().includes(term.toLowerCase()))`.
Reading `Location` on a record where it is absent throws, which the
branch does not catch; `none` models that exception reaching the
caller. -/
def filterMockByLocation (searchTerm : String) : List Listing → Option (List Listing)
  | [] => some []
  | l :: ls =>
    match l.Location with
    | none => none
    | some loc =>
      match filterMockByLocation searchTerm ls with
      | none => none
      | some rest =>
          some (if strContains (lowerStr loc) (lowerStr searchTerm) then l :: rest else rest)

/-- `searchListingsByLocation` of lib/supabase.js: filtered mock data
when unconfigured; otherwise `data || []` on success and `[]` on a
reported error or a thrown exception. -/
def searchListingsByLocation (configured : Bool) (backend : BackendResult (List Listing))
    (searchTerm : String) : Option (List Listing) :=
  if !configured then filterMockByLocation searchTerm getMockListings
  else
    match backend with
    | .ok d => some (d.getD [])
    | .err => some []
    | .exn => some []

/-- Placeholder sentinel used at client creation time. -/
def placeholderUrl : String := "https://placeholder.supabase.co"

/-- Placeholder sentinel for the API key. -/
def placeholderKey : String := "placeholder-key"

/-- `isSupabaseConfigured`: `!!(url && key && url !== placeholderUrl &&
key !== placeholderKey)`, with an absent environment variable embedded
as the falsy empty string. -/
def isSupabaseConfigured (supabaseUrl supabaseAnonKey : String) : Bool :=
  !(supabaseUrl == "") && !(supabaseAnonKey == "") &&
  !(supabaseUrl == placeholderUrl) && !(supabaseAnonKey == placeholderKey)

/-- A backend-authenticated (or mock) user record as returned by
`signInUser`. -/
structure AuthUser where
  id : String
  email : String
  role : String
deriving DecidableEq

/-- The `{ user, error, mockMode }` result shape of `signInUser`
(`mockMode` is absent — `false` — on the configured paths). -/
structure SignInResult where
  user : Option AuthUser
  error : Option String
  mockMode : Bool
deriving DecidableEq

/-- `signInUser` of lib/supabase.js: in mock mode any credentials
yield the synthetic user `{ id: 'mock-user', email, role: 'tenant' }`;
when configured the backend's answer (success or failure) is mapped
into the result shape. -/
def signInUser (configured : Bool) (backend : Except String AuthUser)
    (email password : String) : SignInResult :=
  if !configured then
    { user := some { id := "mock-user", email := email, role := "tenant" },
      error := none, mockMode := true }
  else
    match backend with
    | .ok u => { user := some u, error := none, mockMode := false }
    | .error e => { user := none, error := some e, mockMode := false }

/-- The `{ id: 'mock-user', email }` object built by the login page's
mock branch. -/
structure MockUser where
  id : String
  email : String
deriving DecidableEq

/-- The `user`/`role`/`loading` fields of the auth context. -/
structure AuthState where
  user : Option MockUser
  role : Option String
  loading : Bool
deriving DecidableEq

/-- `updateAuthState` of AuthContext: sets user and role, clears
`loading`. -/
def updateAuthState (newUser : Option MockUser) (newRole : Option String) : AuthState :=
  { user := newUser, role := newRole, loading := false }

/-- The role ternary of the login page's mock branch:
`email.includes('admin') ? 'admin' : email.includes('agent') ? 'agent' : 'tenant'`. -/
def mockRoleFor (email : String) : String :=
  if strContains email "admin" then "admin"
  else if strContains email "agent" then "agent"
  else "tenant"

/-- `handleSubmit` of the login page, returning the resulting auth
state and the error message (if any): empty-field validation, then
`signInUser`; on a mock-mode success the state is set through
`updateAuthState` with the email-derived role. -/
def handleSubmit (configured : Bool) (backend : Except String AuthUser)
    (email password : String) (st : AuthState) : AuthState × Option String :=
  if email == "" || password == "" then (st, some "Please fill in all fields")
  else
    let r := signInUser configured backend email password
    match r.error with
    | some e => (st, some e)
    | none =>
        if r.mockMode then
          (updateAuthState (some { id := "mock-user", email := email })
             (some (mockRoleFor email)), none)
        else (st, none)

/-- A tiny array heap: array objects indexed by allocation order, so
that JS aliasing and in-place mutation can be expressed. -/
structure Heap where
  arrays : Nat → List Listing
  next : Nat

/-- Allocate a fresh array holding `v`, returning the new heap and the
reference. -/
def Heap.alloc (h : Heap) (v : List Listing) : Heap × Nat :=
  ({ arrays := fun i => if i = h.next then v else h.arrays i, next := h.next + 1 }, h.next)

/-- Overwrite the array at reference `r` (in-place mutation). -/
def Heap.store (h : Heap) (r : Nat) (v : List Listing) : Heap :=
  { arrays := fun i => if i = r then v else h.arrays i, next := h.next }

/-- `applyFiltersAndSort` with its array operations made explicit:
`[...listings]` allocates a copy, each `filter` allocates a fresh
array, and `sort` mutates the current `filtered` array in place
(never the input, which is only ever read). -/
def applyFiltersAndSortImp (h : Heap) (r : Nat) (propertyType : String)
    (showPetFriendlyOnly : Bool) (sortKey : String) : Heap × Nat :=
  let p1 := h.alloc (h.arrays r)
  let p2 := if propertyType == "" then p1
            else p1.1.alloc ((p1.1.arrays p1.2).filter (propertyTypeKeeps propertyType))
  let p3 := if showPetFriendlyOnly then p2.1.alloc ((p2.1.arrays p2.2).filter petFriendlyKeeps)
            else p2
  (p3.1.store p3.2 (sortListings sortKey (p3.1.arrays p3.2)), p3.2)

/-! ### Generic facts about the stable sort -/

section SortLemmas

variable {α : Type} (le : α → α → Bool)

theorem insertSorted_perm (a : α) (l : List α) :
    List.Perm (insertSorted le a l) (a :: l) := by
  induction l with
  | nil => rfl
  | cons b t ih =>
    by_cases h : le a b
    · simp [insertSorted, h]
    · simp only [insertSorted, h, if_neg, Bool.not_eq_true]
      exact List.Perm.trans (List.Perm.cons b ih) (List.Perm.swap a b t)

theorem stableSortBy_perm (l : List α) : List.Perm (stableSortBy le l) l := by
  induction l with
  | nil => rfl
  | cons a t ih =>
    exact List.Perm.trans (insertSorted_perm le a (stableSortBy le t)) (List.Perm.cons a ih)

theorem mem_insertSorted {x a : α} {l : List α} :
    x ∈ insertSorted le a l ↔ x = a ∨ x ∈ l := by
  rw [(insertSorted_perm le a l).mem_iff, List.mem_cons]

theorem pairwise_insertSorted
    (htot : ∀ a b, le a b = true ∨ le b a = true)
    (htrans : ∀ a b c, le a b = true → le b c = true → le a c = true)
    (a : α) (l : List α) (hl : l.Pairwise (fun x y => le x y = true)) :
    (insertSorted le a l).Pairwise (fun x y => le x y = true) := by
  induction l with
  | nil => simp [insertSorted]
  | cons b t ih =>
    rcases List.pairwise_cons.mp hl with ⟨hb, ht⟩
    by_cases h : le a b
    · simp only [insertSorted, h, if_pos]
      refine List.pairwise_cons.mpr ⟨?_, hl⟩
      intro x hx
      rcases List.mem_cons.mp hx with rfl | hx
      · exact h
      · exact htrans a b x h (hb x hx)
    · simp only [insertSorted, h, if_neg, Bool.not_eq_true]
      refine List.pairwise_cons.mpr ⟨?_, ih ht⟩
      intro x hx
      rcases (mem_insertSorted le).mp hx with rfl | hx
      · rcases htot x b with h' | h'
        · exact absurd h' h
        · exact h'
      · exact hb x hx

theorem pairwise_stableSortBy
    (htot : ∀ a b, le a b = true ∨ le b a = true)
    (htrans : ∀ a b c, le a b = true → le b c = true → le a c = true)
    (l : List α) :
    (stableSortBy le l).Pairwise (fun x y => le x y = true) := by
  induction l with
  | nil => simp [stableSortBy]
  | cons a t ih => exact pairwise_insertSorted le htot htrans a _ ih

theorem chain'_insertSorted
    (htot : ∀ a b, le a b = true ∨ le b a = true)
    (a : α) (l : List α) (hl : l.Chain' (fun x y => le x y = true)) :
    (insertSorted le a l).Chain' (fun x y => le x y = true) := by
  induction l with
  | nil => simp [insertSorted]
  | cons b t ih =>
    by_cases h : le a b
    · simp only [insertSorted, h, if_pos]
      exact List.Chain'.cons h hl
    · simp only [insertSorted, h, if_neg, Bool.not_eq_true]
      have hba : le b a = true := by
        rcases htot a b with h' | h'
        · exact absurd h' h
        · exact h'
      have ht : t.Chain' (fun x y => le x y = true) := hl.tail
      cases t with
      | nil => exact List.chain'_pair.mpr hba
      | cons c t' =>
        have hbc : le b c = true := (List.chain'_cons.mp hl).1
        by_cases hac : le a c
        · simp only [insertSorted, hac, if_pos]
          exact List.Chain'.cons hba (List.Chain'.cons hac ht)
        · simp only [insertSorted, hac, if_neg, Bool.not_eq_true]
          have hrec := ih ht
          simp only [insertSorted, hac, if_neg, Bool.not_eq_true] at hrec
          exact List.Chain'.cons hbc hrec

theorem chain'_stableSortBy
    (htot : ∀ a b, le a b = true ∨ le b a = true)
    (l : List α) :
    (stableSortBy le l).Chain' (fun x y => le x y = true) := by
  induction l with
  | nil => simp [stableSortBy]
  | cons a t ih => exact chain'_insertSorted le htot a _ ih

theorem stableSortBy_eq_of_chain'
    (l : List α) (hl : l.Chain' (fun x y => le x y = true)) :
    stableSortBy le l = l := by
  induction l with
  | nil => rfl
  | cons a t ih =>
    have ht := hl.tail
    show insertSorted le a (stableSortBy le t) = a :: t
    rw [ih ht]
    cases t with
    | nil => rfl
    | cons b t' =>
      have hab : le a b = true := (List.chain'_cons.mp hl).1
      simp [insertSorted, hab]

theorem stableSortBy_idem
    (htot : ∀ a b, le a b = true ∨ le b a = true)
    (l : List α) :
    stableSortBy le (stableSortBy le l) = stableSortBy le l :=
  stableSortBy_eq_of_chain' le _ (chain'_stableSortBy le htot l)

end SortLemmas

/-! ### The six comparators are consistent (differences of a key) -/

theorem sortCmp_shape (key : String) : ∃ f : Listing → Int,
    (∀ a b, sortCmp key a b = f a - f b) ∨ (∀ a b, sortCmp key a b = f b - f a) := by
  by_cases h1 : key = "newest"
  · exact ⟨fun l => (l.Listed : Int), Or.inr fun a b => by rw [h1]; rfl⟩
  by_cases h2 : key = "oldest"
  · exact ⟨fun l => (l.Listed : Int), Or.inl fun a b => by rw [h2]; rfl⟩
  by_cases h3 : key = "cheapest"
  · exact ⟨fun l => ((l.Rent.getD 0 : Nat) : Int), Or.inl fun a b => by rw [h3]; rfl⟩
  by_cases h4 : key = "expensive"
  · exact ⟨fun l => ((l.Rent.getD 0 : Nat) : Int), Or.inr fun a b => by rw [h4]; rfl⟩
  by_cases h5 : key = "bedrooms-asc"
  · exact ⟨fun l => ((l.Bedrooms.getD 0 : Nat) : Int), Or.inl fun a b => by rw [h5]; rfl⟩
  by_cases h6 : key = "bedrooms-desc"
  · exact ⟨fun l => ((l.Bedrooms.getD 0 : Nat) : Int), Or.inr fun a b => by rw [h6]; rfl⟩
  · refine ⟨fun _ => 0, Or.inl fun a b => ?_⟩
    show sortCmp key a b = 0
    unfold sortCmp
    split <;> simp_all

theorem sortLe_total (key : String) (a b : Listing) :
    decide (sortCmp key a b ≤ 0) = true ∨ decide (sortCmp key b a ≤ 0) = true := by
  obtain ⟨f, hf | hf⟩ := sortCmp_shape key <;> simp only [hf, decide_eq_true_eq] <;> omega

theorem sortLe_trans (key : String) (a b c : Listing) :
    decide (sortCmp key a b ≤ 0) = true → decide (sortCmp key b c ≤ 0) = true →
    decide (sortCmp key a c ≤ 0) = true := by
  obtain ⟨f, hf | hf⟩ := sortCmp_shape key <;> simp only [hf, decide_eq_true_eq] <;> omega

/-! ### Claim theorems -/

/-- C1: for every listing list `L` and filter `f` among the seven
documented values, `apply(L, f, false, 'newest')` holds exactly the
listings of `L` satisfying `f`'s predicate (as a permutation of the
filtered list) and is ordered by `Listed` descending. -/
theorem c1_seven_filters_newest (L : List Listing) (f : String)
    (hf : f ∈ ["studio", "one-bed", "two-bed", "three-bed",
               "house-share", "furnished", "unfurnished"]) :
    List.Perm (applyFiltersAndSort L f false "newest") (L.filter (propertyTypeKeeps f)) ∧
    List.Pairwise (fun a b : Listing => b.Listed ≤ a.Listed)
      (applyFiltersAndSort L f false "newest") := by
  have hne : (f == "") = false := by
    simp only [List.mem_cons, List.not_mem_nil, or_false] at hf
    rcases hf with rfl | rfl | rfl | rfl | rfl | rfl | rfl <;> rfl
  have hpipe : applyFiltersAndSort L f false "newest"
      = sortListings "newest" (L.filter (propertyTypeKeeps f)) := by
    simp [applyFiltersAndSort, hne]
  constructor
  · rw [hpipe]
    exact stableSortBy_perm _ _
  · rw [hpipe]
    have hp := pairwise_stableSortBy (fun a b => decide (sortCmp "newest" a b ≤ 0))
      (sortLe_total "newest") (sortLe_trans "newest") (L.filter (propertyTypeKeeps f))
    refine hp.imp ?_
    intro a b h
    have h' : sortCmp "newest" a b ≤ 0 := of_decide_eq_true h
    have he : sortCmp "newest" a b = (b.Listed : Int) - (a.Listed : Int) := rfl
    rw [he] at h'
    omega

/-- Witness for C1 at the fixture list and the `studio` filter. -/
theorem c1_witness :
    ("studio" ∈ ["studio", "one-bed", "two-bed", "three-bed",
                 "house-share", "furnished", "unfurnished"]) ∧
    (List.Perm (applyFiltersAndSort getMockListings "studio" false "newest")
       (getMockListings.filter (propertyTypeKeeps "studio")) ∧
     List.Pairwise (fun a b : Listing => b.Listed ≤ a.Listed)
       (applyFiltersAndSort getMockListings "studio" false "newest")) :=
  ⟨by decide, c1_seven_filters_newest getMockListings "studio" (by decide)⟩

/-- C2: every listing the pipeline outputs under the pet-friendly flag
has positive `PetParkingCosts`, or `Garden === true`, or a description
that (case-insensitively) mentions pet/dog/cat. -/
theorem c2_pet_filter_sound (L : List Listing) (key : String) (l : Listing)
    (hl : l ∈ applyFiltersAndSort L "" true key) :
    (∃ n, l.PetParkingCosts = some n ∧ 0 < n) ∨ l.Garden = some true ∨
    descHas l "pet" = true ∨ descHas l "dog" = true ∨ descHas l "cat" = true := by
  have hpipe : applyFiltersAndSort L "" true key
      = sortListings key (L.filter petFriendlyKeeps) := rfl
  rw [hpipe] at hl
  have hl' : l ∈ L.filter petFriendlyKeeps := (stableSortBy_perm _ _).mem_iff.mp hl
  have hkeep : petFriendlyKeeps l = true := List.of_mem_filter hl'
  unfold petFriendlyKeeps at hkeep
  simp only [Bool.or_eq_true] at hkeep
  rcases hkeep with ((((h | h) | h) | h) | h)
  · left
    cases hpp : l.PetParkingCosts with
    | none => rw [hpp] at h; exact absurd h (by simp)
    | some n =>
      rw [hpp] at h
      exact ⟨n, rfl, of_decide_eq_true h⟩
  · right; left; exact beq_iff_eq.mp h
  · right; right; left; exact h
  · right; right; right; left; exact h
  · right; right; right; right; exact h

/-- Witness for C2 at a one-listing input with positive pet costs. -/
theorem c2_witness :
    ((⟨6, "t", none, 0, none, none, none, none, none, none, none, some 1, none, none⟩ : Listing)
        ∈ applyFiltersAndSort
            [⟨6, "t", none, 0, none, none, none, none, none, none, none, some 1, none, none⟩]
            "" true "newest") ∧
    ((∃ n, (⟨6, "t", none, 0, none, none, none, none, none, none, none, some 1, none,
              none⟩ : Listing).PetParkingCosts = some n ∧ 0 < n) ∨
     (⟨6, "t", none, 0, none, none, none, none, none, none, none, some 1, none,
        none⟩ : Listing).Garden = some true ∨
     descHas ⟨6, "t", none, 0, none, none, none, none, none, none, none, some 1, none, none⟩
       "pet" = true ∨
     descHas ⟨6, "t", none, 0, none, none, none, none, none, none, none, some 1, none, none⟩
       "dog" = true ∨
     descHas ⟨6, "t", none, 0, none, none, none, none, none, none, none, some 1, none, none⟩
       "cat" = true) :=
  ⟨by decide, c2_pet_filter_sound
    [⟨6, "t", none, 0, none, none, none, none, none, none, none, some 1, none, none⟩]
    "newest"
    ⟨6, "t", none, 0, none, none, none, none, none, none, none, some 1, none, none⟩
    (by decide)⟩

/-- C3: `fetchListings` falls back to the fixed 5-item fixture set when
unconfigured and on both backend-error paths, while a configured
`searchListingsByLocation` returns `[]` on both backend-error paths —
the asymmetric fallbacks of the two operations. -/
theorem c3_error_fallback_asymmetry (b : BackendResult (List Listing)) (term : String) :
    fetchListings false b = getMockListings ∧
    fetchListings true BackendResult.err = getMockListings ∧
    fetchListings true BackendResult.exn = getMockListings ∧
    searchListingsByLocation true BackendResult.err term = some [] ∧
    searchListingsByLocation true BackendResult.exn term = some [] ∧
    getMockListings.length = 5 ∧ getMockListings ≠ [] :=
  ⟨rfl, rfl, rfl, rfl, rfl, rfl, by decide⟩

/-- C4 counterexample: on the fixtures, `apply(fixtures, '', true,
'bedrooms-desc')` does not produce the id sequence [3,1,2,5,4] stated
by the claim. -/
theorem c4_counterexample :
    (applyFiltersAndSort getMockListings "" true "bedrooms-desc").map Listing.id
      ≠ [3, 1, 2, 5, 4] := by decide

/-- C4 (amended): the pet-friendly fixtures sorted by bedrooms
descending with stable ties are the ids [3,1,4,5,2]. -/
theorem c4_fixture_pet_bedrooms_desc :
    (applyFiltersAndSort getMockListings "" true "bedrooms-desc").map Listing.id
      = [3, 1, 4, 5, 2] := by decide

/-- C5: the sort step of the pipeline is idempotent for every sort key
(stated through the pipeline with both filters off, which is exactly
the sort). -/
theorem c5_sort_idempotent (key : String) (l : List Listing) :
    applyFiltersAndSort (applyFiltersAndSort l "" false key) "" false key
      = applyFiltersAndSort l "" false key := by
  have h : ∀ m : List Listing, applyFiltersAndSort m "" false key = sortListings key m :=
    fun m => rfl
  simp only [h]
  exact stableSortBy_idem _ (fun a b => sortLe_total key a b) l

/-- C6: run with arrays and in-place mutation made explicit, the
pipeline leaves the input array untouched and its result is the pure
`applyFiltersAndSort` of the input's contents. -/
theorem c6_no_mutation_and_pure (h : Heap) (r : Nat) (pt : String) (pf : Bool) (key : String)
    (hr : r < h.next) :
    (applyFiltersAndSortImp h r pt pf key).1.arrays r = h.arrays r ∧
    (applyFiltersAndSortImp h r pt pf key).1.arrays (applyFiltersAndSortImp h r pt pf key).2
      = applyFiltersAndSort (h.arrays r) pt pf key := by
  have h0 : r ≠ h.next := by omega
  have h1 : r ≠ h.next + 1 := by omega
  have h2 : r ≠ h.next + 1 + 1 := by omega
  have h3 : ¬ h.next = h.next + 1 := by omega
  have h4 : ¬ h.next + 1 = h.next := by omega
  have h5 : ¬ h.next + 1 + 1 = h.next + 1 := by omega
  have h6 : ¬ h.next + 1 + 1 = h.next := by omega
  cases hpt : (pt == "") <;> cases pf <;>
    simp [applyFiltersAndSortImp, Heap.alloc, Heap.store, applyFiltersAndSort,
          hpt, h0, h1, h2, h3, h4, h5, h6]

/-- Witness for C6 at a one-array heap. -/
theorem c6_witness :
    (0 < (1 : Nat)) ∧
    ((applyFiltersAndSortImp { arrays := fun _ => [], next := 1 } 0 "studio" true
        "newest").1.arrays 0
        = ({ arrays := fun _ => [], next := 1 } : Heap).arrays 0 ∧
     (applyFiltersAndSortImp { arrays := fun _ => [], next := 1 } 0 "studio" true
        "newest").1.arrays
        (applyFiltersAndSortImp { arrays := fun _ => [], next := 1 } 0 "studio" true "newest").2
        = applyFiltersAndSort (({ arrays := fun _ => [], next := 1 } : Heap).arrays 0)
            "studio" true "newest") :=
  ⟨by decide, c6_no_mutation_and_pure { arrays := fun _ => [], next := 1 } 0 "studio" true
    "newest" (by decide)⟩

/-- C7 counterexample: with an empty email the mock login flow reports
the validation error instead of succeeding, so "any email" fails at the
empty string. -/
theorem c7_counterexample :
    (handleSubmit false (Except.error "e") "" "pw"
        { user := none, role := none, loading := true }).2 ≠ none ∧
    (handleSubmit false (Except.error "e") "" "pw"
        { user := none, role := none, loading := true }).1.user ≠
      some { id := "mock-user", email := "" } := by
  decide

/-- C7 (amended): in mock mode the login flow with any non-empty email
and non-empty password succeeds and stores the synthetic user
`{ id: 'mock-user', email }` with the role derived from the email text
(`admin` substring → admin, else `agent` substring → agent, else
tenant). -/
theorem c7_mock_sign_in_derives_role (backend : Except String AuthUser)
    (email password : String) (st : AuthState)
    (he : email ≠ "") (hp : password ≠ "") :
    (handleSubmit false backend email password st).2 = none ∧
    (handleSubmit false backend email password st).1.user
      = some { id := "mock-user", email := email } ∧
    (handleSubmit false backend email password st).1.role
      = some (if strContains email "admin" then "admin"
              else if strContains email "agent" then "agent" else "tenant") := by
  have hbe : (email == "") = false := by simp [he]
  have hbp : (password == "") = false := by simp [hp]
  simp [handleSubmit, signInUser, updateAuthState, mockRoleFor, hbe, hbp]

/-- Witness for C7 (amended) at the demo admin credentials. -/
theorem c7_witness :
    (("admin@demo.com" : String) ≠ "" ∧ ("password" : String) ≠ "") ∧
    ((handleSubmit false (Except.error "e") "admin@demo.com" "password"
        { user := none, role := none, loading := true }).2 = none ∧
     (handleSubmit false (Except.error "e") "admin@demo.com" "password"
        { user := none, role := none, loading := true }).1.user
        = some { id := "mock-user", email := "admin@demo.com" } ∧
     (handleSubmit false (Except.error "e") "admin@demo.com" "password"
        { user := none, role := none, loading := true }).1.role
        = some (if strContains "admin@demo.com" "admin" then "admin"
                else if strContains "admin@demo.com" "agent" then "agent" else "tenant")) :=
  ⟨⟨by decide, by decide⟩,
   c7_mock_sign_in_derives_role (Except.error "e") "admin@demo.com" "password"
     { user := none, role := none, loading := true } (by decide) (by decide)⟩

/-- C8 counterexample: the pair (placeholder URL, a real key) is
non-empty and is not the double-placeholder pair, yet
`isSupabaseConfigured` returns `false` — refuting "true for every
other pair in which both values are non-empty". -/
theorem c8_counterexample :
    ("https://placeholder.supabase.co" : String) ≠ "" ∧ ("real-key" : String) ≠ "" ∧
    ¬(("https://placeholder.supabase.co" : String) = placeholderUrl ∧
      ("real-key" : String) = placeholderKey) ∧
    isSupabaseConfigured "https://placeholder.supabase.co" "real-key" = false := by
  decide

/-- C8 (amended): `isSupabaseConfigured` is true iff both values are
non-empty, the URL differs from the placeholder URL, and the key
differs from the placeholder key. -/
theorem c8_amended_iff (url key : String) :
    isSupabaseConfigured url key = true ↔
      url ≠ "" ∧ key ≠ "" ∧ url ≠ placeholderUrl ∧ key ≠ placeholderKey := by
  simp [isSupabaseConfigured]
  tauto

/-- The mock-data location filter succeeds whenever every record in the
data has a `Location`. -/
theorem filterMockByLocation_isSome (term : String) (data : List Listing)
    (h : ∀ l ∈ data, l.Location.isSome = true) :
    (filterMockByLocation term data).isSome = true := by
  induction data with
  | nil => rfl
  | cons l ls ih =>
    have hl := h l (List.mem_cons_self l ls)
    have hrest := ih (fun x hx => h x (List.mem_cons_of_mem l hx))
    cases hloc : l.Location with
    | none => rw [hloc] at hl; simp at hl
    | some loc =>
      cases hr : filterMockByLocation term ls with
      | none => rw [hr] at hrest; simp at hrest
      | some rest => simp [filterMockByLocation, hloc, hr]

/-- C10: in mock mode the location search is total for every term
(because every fixture listing carries a `Location`), and the
empty-string term returns all 5 fixture listings. -/
theorem c10_mock_search_total (b : BackendResult (List Listing)) (term : String) :
    (∀ l ∈ getMockListings, l.Location.isSome = true) ∧
    (searchListingsByLocation false b term).isSome = true ∧
    searchListingsByLocation false b "" = some getMockListings := by
  refine ⟨by decide, ?_, ?_⟩
  · show (filterMockByLocation term getMockListings).isSome = true
    exact filterMockByLocation_isSome term getMockListings (by decide)
  · show filterMockByLocation "" getMockListings = some getMockListings
    decide

/-- C9: a non-empty filter value outside the seven documented ones hits
the `default: return true` branch, so the pipeline output coincides
with the unfiltered pipeline. -/
theorem c9_unknown_filter_keeps_all (L : List Listing) (f key : String)
    (hne : f ≠ "")
    (hout : f ∉ ["studio", "one-bed", "two-bed", "three-bed",
                 "house-share", "furnished", "unfurnished"]) :
    applyFiltersAndSort L f false key = applyFiltersAndSort L "" false key := by
  simp only [List.mem_cons, List.not_mem_nil, or_false, not_or] at hout
  obtain ⟨h1, h2, h3, h4, h5, h6, h7⟩ := hout
  have hkeep : ∀ l, propertyTypeKeeps f l = true := by
    intro l
    unfold propertyTypeKeeps
    split <;> simp_all
  have hbeq : (f == "") = false := by
    simp [hne]
  have hL : applyFiltersAndSort L f false key
      = sortListings key (L.filter (propertyTypeKeeps f)) := by
    simp [applyFiltersAndSort, hbeq]
  have hR : applyFiltersAndSort L "" false key = sortListings key L := rfl
  rw [hL, hR, List.filter_eq_self.mpr (fun a _ => hkeep a)]

/-- Witness for C9 at the fixture list and the unknown value
`mansion`. -/
theorem c9_witness :
    (("mansion" : String) ≠ "" ∧
     "mansion" ∉ ["studio", "one-bed", "two-bed", "three-bed",
                  "house-share", "furnished", "unfurnished"]) ∧
    applyFiltersAndSort getMockListings "mansion" false "newest"
      = applyFiltersAndSort getMockListings "" false "newest" :=
  ⟨⟨by decide, by decide⟩,
   c9_unknown_filter_keeps_all getMockListings "mansion" "newest" (by decide) (by decide)⟩

end PawsPlace
